import Mathlib

/-!
Verification of `misc_writer.cpp` (android_bootable_recovery, misc_writer).

The C++ source is shallowly embedded: `size_t` arithmetic is `Nat` with an
explicit modulus where wrap-around matters, external system calls (fstab
reading, `open`/`lseek`/`write`/`fsync`) are modelled by an explicit
environment record describing their outcomes, and the misc partition is a
byte array `Nat → Nat`.  Each function of the source becomes a pure Lean
function over that environment; an event trace records which external
operations the control flow actually reached.
-/

namespace MiscWriter

/-- Modulus of the C type `size_t` (64-bit). -/
def SIZE_T_MOD : Nat := 2 ^ 64

/-- C unsigned subtraction on `size_t` values (wraps modulo `2^64`).
Both arguments are assumed `< SIZE_T_MOD`, as every `size_t` value is. -/
def csub (a b : Nat) : Nat := (a + SIZE_T_MOD - b) % SIZE_T_MOD

/-- The C cast `static_cast<off_t>(offset)` for a `size_t` value:
`off_t` is a signed 64-bit integer, so values `≥ 2^63` wrap to negative. -/
def toOffT (n : Nat) : Int :=
  if n < 2 ^ 63 then (n : Int) else (n : Int) - (2 ^ 64 : Int)

/-- Modelled from the spec: the partition layout constants
`VENDOR_SPACE_OFFSET_IN_MISC` and `WIPE_PACKAGE_OFFSET_IN_MISC` come from
`bootloader_message.h`, which is not among the provided sources.  The spec
fixes only that both are build-time `size_t` constants with
`VENDOR_SPACE_OFFSET < WIPE_PACKAGE_OFFSET`, so the development is
parametric over any layout satisfying that invariant. -/
structure Layout where
  VENDOR_SPACE_OFFSET_IN_MISC : Nat
  WIPE_PACKAGE_OFFSET_IN_MISC : Nat
  vendor_lt_wipe : VENDOR_SPACE_OFFSET_IN_MISC < WIPE_PACKAGE_OFFSET_IN_MISC
  wipe_lt_mod : WIPE_PACKAGE_OFFSET_IN_MISC < SIZE_T_MOD

/-- The vendor-space capacity `WIPE_PACKAGE_OFFSET - VENDOR_SPACE_OFFSET`
as plain (non-wrapping) natural subtraction; by `vendor_lt_wipe` this is
what the C expression on line 100 of the source computes. -/
def Layout.capacity (L : Layout) : Nat :=
  L.WIPE_PACKAGE_OFFSET_IN_MISC - L.VENDOR_SPACE_OFFSET_IN_MISC

/-- Embeds `MiscWriter::OffsetAndSizeInVendorSpace` (lines 99-102):
`total_size = WIPE_PACKAGE_OFFSET_IN_MISC - VENDOR_SPACE_OFFSET_IN_MISC`
in `size_t` arithmetic, then
`size <= total_size && offset <= total_size - size`.
Lean's `&&` is short-circuit like C's; `csub` is total, so the value of
the second conjunct is irrelevant whenever the first is `false`. -/
def OffsetAndSizeInVendorSpace (L : Layout) (offset size : Nat) : Bool :=
  let total_size := csub L.WIPE_PACKAGE_OFFSET_IN_MISC L.VENDOR_SPACE_OFFSET_IN_MISC
  decide (size ≤ total_size) && decide (offset ≤ csub total_size size)

/-- One entry of the fstab table, as inspected by `get_misc_blk_device`. -/
structure FstabEntry where
  mount_point : String
  blk_device : String
deriving DecidableEq

/-- Environment describing the outcome of every external operation a single
call can perform.  `readDefaultFstab = none` means `ReadDefaultFstab`
returns `false`; `bytesAccepted` is how many bytes the device accepts
before a write error, so `WriteFully` succeeds iff `size ≤ bytesAccepted`;
`disk` is the current byte content of the misc block device. -/
structure SysEnv where
  g_misc_device_for_test : String
  readDefaultFstab : Option (List FstabEntry)
  openOk : Bool
  lseekResult : Int
  bytesAccepted : Nat
  fsyncOk : Bool
  errnoMsg : String
  disk : Nat → Nat

/-- Embeds `SetMiscBlockDeviceForTest` (lines 52-54): overwrites the
process-wide `g_misc_device_for_test`. -/
def SetMiscBlockDeviceForTest (env : SysEnv) (misc_device : String) : SysEnv :=
  { env with g_misc_device_for_test := misc_device }

/-- Embeds `get_misc_blk_device` (lines 55-71).  The C out-parameter
`err` is returned as `Option String`: `none` when the function never
assigned it.  Returns the test override when it is non-empty, otherwise
scans the fstab for the first entry mounted at `/misc`. -/
def get_misc_blk_device (env : SysEnv) : String × Option String :=
  if env.g_misc_device_for_test ≠ "" then
    (env.g_misc_device_for_test, none)
  else
    match env.readDefaultFstab with
    | none => ("", some "failed to read default fstab")
    | some fstab =>
      match fstab.find? (fun entry => entry.mount_point == "/misc") with
      | some entry => (entry.blk_device, none)
      | none => ("", some "failed to find /misc partition")

/-- External operations in the order the control flow reaches them. -/
inductive Event
  | boundsCheck (offset size : Nat)
  | resolveDevice
  | openDevice (dev : String)
  | seek (offset : Nat)
  | rawWrite (offset size : Nat)
  | fsync
deriving DecidableEq

/-- Overwrite `data` into the byte array `disk` starting at `offset`;
bytes outside `[offset, offset + data.length)` are untouched. -/
def writeBytes (disk : Nat → Nat) (offset : Nat) (data : List Nat) : Nat → Nat :=
  fun i =>
    if offset ≤ i ∧ i < offset + data.length then data.getD (i - offset) 0 else disk i

/-- Result of a call into the write path: the returned `bool`, the C
out-parameter `err` (`none` when never assigned), the device bytes after
the call, and the trace of external operations reached. -/
structure WmpResult where
  ok : Bool
  err : Option String
  disk : Nat → Nat
  events : List Event

/-- Embeds `write_misc_partition` (lines 73-97): open the device
write-only, `lseek` to `offset` (failing unless the result equals the
requested position after the `off_t` cast), write the whole buffer with
`WriteFully` (a short write is a failure, and only the bytes the device
accepted are on disk), then `fsync`.  The first failing step assigns
`err` and returns `false`. -/
def write_misc_partition (env : SysEnv) (p : List Nat) (size : Nat)
    (misc_blk_device : String) (offset : Nat) : WmpResult :=
  if !env.openOk then
    { ok := false
      err := some ("failed to open " ++ misc_blk_device ++ ": " ++ env.errnoMsg)
      disk := env.disk
      events := [.openDevice misc_blk_device] }
  else if env.lseekResult ≠ toOffT offset then
    { ok := false
      err := some ("failed to lseek " ++ misc_blk_device ++ ": " ++ env.errnoMsg)
      disk := env.disk
      events := [.openDevice misc_blk_device, .seek offset] }
  else
    let written := min env.bytesAccepted size
    let disk1 := writeBytes env.disk offset (p.take written)
    if written < size then
      { ok := false
        err := some ("failed to write " ++ misc_blk_device ++ ": " ++ env.errnoMsg)
        disk := disk1
        events := [.openDevice misc_blk_device, .seek offset, .rawWrite offset size] }
    else if !env.fsyncOk then
      { ok := false
        err := some ("failed to fsync " ++ misc_blk_device ++ ": " ++ env.errnoMsg)
        disk := disk1
        events := [.openDevice misc_blk_device, .seek offset, .rawWrite offset size,
                   .fsync] }
    else
      { ok := true
        err := none
        disk := disk1
        events := [.openDevice misc_blk_device, .seek offset, .rawWrite offset size,
                   .fsync] }

/-- Embeds `MiscWriter::WriteMiscPartitionVendorSpace` (lines 104-116):
bounds-check the logical request, resolve the device, and delegate to
`write_misc_partition` at absolute offset
`VENDOR_SPACE_OFFSET_IN_MISC + offset` (a `size_t` sum, hence the
modulus).  When the resolved device is the empty string the call fails
with `err` exactly as `get_misc_blk_device` left it. -/
def WriteMiscPartitionVendorSpace (L : Layout) (env : SysEnv) (data : List Nat)
    (size offset : Nat) : WmpResult :=
  if !OffsetAndSizeInVendorSpace L offset size then
    { ok := false
      err := some ("Out of bound write (offset " ++ toString offset ++ " size " ++
                   toString size ++ ")")
      disk := env.disk
      events := [.boundsCheck offset size] }
  else
    let resolved := get_misc_blk_device env
    if resolved.1 = "" then
      { ok := false
        err := resolved.2
        disk := env.disk
        events := [.boundsCheck offset size, .resolveDevice] }
    else
      let r := write_misc_partition env data size resolved.1
        ((L.VENDOR_SPACE_OFFSET_IN_MISC + offset) % SIZE_T_MOD)
      { ok := r.ok
        err := r.err
        disk := r.disk
        events := [.boundsCheck offset size, .resolveDevice] ++ r.events }

/-- Modelled from the spec: the action enumeration of `misc_writer.h`
(not among the provided sources); the spec lists exactly
set/clear of the dark-theme flag, set/clear of the sota flag, and the
uninitialized sentinel `kUnset`, matching the `switch` in the source. -/
inductive MiscWriterActions
  | kSetDarkThemeFlag
  | kClearDarkThemeFlag
  | kSetSotaFlag
  | kClearSotaFlag
  | kUnset
deriving DecidableEq

/-- Bytes of a C string up to (excluding) its first NUL byte: the value
`std::string` takes from a `const char*`. -/
def cstr (l : List Nat) : List Nat := l.takeWhile (fun b => b != 0)

/-- The C `strlen`: length up to the first NUL byte. -/
def strlen (l : List Nat) : Nat := (cstr l).length

/-- Modelled from the spec: the flag constants of `misc_writer.h`
(not among the provided sources).  Each flag is a C string constant
(`kDarkThemeFlag`, `kSotaFlag`, given here as raw bytes) together with a
fixed logical offset in vendor space; the spec fixes no concrete values,
so they stay parameters. -/
structure FlagConfig where
  kDarkThemeFlag : List Nat
  kThemeFlagOffsetInVendorSpace : Nat
  kSotaFlag : List Nat
  kSotaFlagOffsetInVendorSpace : Nat

/-- Result of `MiscWriter::PerformAction`: the returned `bool`, the
device bytes afterwards, and the trace of external operations reached. -/
structure PerformResult where
  ok : Bool
  disk : Nat → Nat
  events : List Event

/-- The tail of `MiscWriter::PerformAction` (lines 140-145): call
`WriteMiscPartitionVendorSpace(content.data(), content.size(), offset)`
and forward its verdict. -/
def dispatchWrite (L : Layout) (env : SysEnv) (content : List Nat)
    (offset : Nat) : PerformResult :=
  let r := WriteMiscPartitionVendorSpace L env content content.length offset
  { ok := r.ok, disk := r.disk, events := r.events }

/-- Embeds `MiscWriter::PerformAction` (lines 118-146): the `switch` on
`action_` picks the content bytes (the flag string for set, a zero-filled
buffer of `strlen(flag)` bytes for clear) and the offset
(`override_offset.value_or(default)`), then dispatches the write;
`kUnset` logs and returns `false` before any of that. -/
def PerformAction (L : Layout) (F : FlagConfig) (env : SysEnv)
    (action_ : MiscWriterActions) (override_offset : Option Nat) : PerformResult :=
  match action_ with
  | .kSetDarkThemeFlag | .kClearDarkThemeFlag =>
    let offset := override_offset.getD F.kThemeFlagOffsetInVendorSpace
    let content := if action_ = MiscWriterActions.kSetDarkThemeFlag then
        cstr F.kDarkThemeFlag
      else
        List.replicate (strlen F.kDarkThemeFlag) 0
    dispatchWrite L env content offset
  | .kSetSotaFlag | .kClearSotaFlag =>
    let offset := override_offset.getD F.kSotaFlagOffsetInVendorSpace
    let content := if action_ = MiscWriterActions.kSetSotaFlag then
        cstr F.kSotaFlag
      else
        List.replicate (strlen F.kSotaFlag) 0
    dispatchWrite L env content offset
  | .kUnset =>
    { ok := false, disk := env.disk, events := [] }

/-- The content the `switch` of `PerformAction` selects for an action
(independent of any offset override). -/
def actionContent (F : FlagConfig) : MiscWriterActions → List Nat
  | .kSetDarkThemeFlag => cstr F.kDarkThemeFlag
  | .kClearDarkThemeFlag => List.replicate (strlen F.kDarkThemeFlag) 0
  | .kSetSotaFlag => cstr F.kSotaFlag
  | .kClearSotaFlag => List.replicate (strlen F.kSotaFlag) 0
  | .kUnset => []

/-- The fixed default logical offset the `switch` of `PerformAction`
selects for an action when no override is supplied. -/
def defaultOffset (F : FlagConfig) : MiscWriterActions → Nat
  | .kSetDarkThemeFlag | .kClearDarkThemeFlag => F.kThemeFlagOffsetInVendorSpace
  | .kSetSotaFlag | .kClearSotaFlag => F.kSotaFlagOffsetInVendorSpace
  | .kUnset => 0

/-- A concrete layout (the worked example of the spec: vendor space
starts at 0, the wipe-package region at 64). -/
def testLayout : Layout := ⟨0, 64, by decide, by decide⟩

/-- A concrete all-zero device image. -/
def zeroDisk : Nat → Nat := fun _ => 0

/-- A concrete environment in which every external operation succeeds
and the device path is supplied by the test override. -/
def testEnvOk : SysEnv := ⟨"/dev/block/misc", none, true, 0, 64, true, "", zeroDisk⟩

/-- A concrete environment with no test override and an fstab whose
`/misc` entry carries an empty `blk_device` string. -/
def envEmptyBlk : SysEnv := ⟨"", some [⟨"/misc", ""⟩], true, 0, 0, true, "", zeroDisk⟩

/-- A concrete flag configuration. -/
def testFlags : FlagConfig := ⟨[1, 2, 3, 4], 0, [5, 6], 8⟩

/-! Helper lemmas shared by the claim theorems. -/

lemma csub_of_le (a b : Nat) (ha : a < SIZE_T_MOD) (h : b ≤ a) :
    csub a b = a - b := by
  unfold csub
  have h1 : a + SIZE_T_MOD - b = (a - b) + SIZE_T_MOD := by omega
  rw [h1, Nat.add_mod_right]
  exact Nat.mod_eq_of_lt (by omega)

lemma Layout.total_size_eq (L : Layout) :
    csub L.WIPE_PACKAGE_OFFSET_IN_MISC L.VENDOR_SPACE_OFFSET_IN_MISC = L.capacity :=
  csub_of_le _ _ L.wipe_lt_mod (Nat.le_of_lt L.vendor_lt_wipe)

lemma Layout.capacity_lt_mod (L : Layout) : L.capacity < SIZE_T_MOD :=
  Nat.lt_of_le_of_lt (Nat.sub_le _ _) L.wipe_lt_mod

lemma bounds_iff (L : Layout) (offset size : Nat) :
    OffsetAndSizeInVendorSpace L offset size = true ↔
      size ≤ L.capacity ∧ offset ≤ L.capacity - size := by
  simp only [OffsetAndSizeInVendorSpace, L.total_size_eq, Bool.and_eq_true,
    decide_eq_true_eq]
  constructor
  · rintro ⟨h1, h2⟩
    rw [csub_of_le _ _ L.capacity_lt_mod h1] at h2
    exact ⟨h1, h2⟩
  · rintro ⟨h1, h2⟩
    rw [csub_of_le _ _ L.capacity_lt_mod h1]
    exact ⟨h1, h2⟩

lemma bounds_iff_sum (L : Layout) (offset size : Nat) :
    OffsetAndSizeInVendorSpace L offset size = true ↔
      offset + size ≤ L.capacity := by
  rw [bounds_iff]
  omega

lemma writeBytes_eq_outside (d : Nat → Nat) (off : Nat) (l : List Nat) (i : Nat)
    (h : i < off ∨ off + l.length ≤ i) : writeBytes d off l i = d i := by
  have hn : ¬(off ≤ i ∧ i < off + l.length) := by omega
  simp [writeBytes, hn]

lemma writeBytes_idem (d : Nat → Nat) (off : Nat) (l : List Nat) :
    writeBytes (writeBytes d off l) off l = writeBytes d off l := by
  funext i
  by_cases h : off ≤ i ∧ i < off + l.length <;> simp [writeBytes, h]

lemma wmp_ok_iff (env : SysEnv) (p : List Nat) (size : Nat) (dev : String)
    (offset : Nat) :
    (write_misc_partition env p size dev offset).ok = true ↔
      (env.openOk = true ∧ env.lseekResult = toOffT offset ∧
        size ≤ env.bytesAccepted ∧ env.fsyncOk = true) := by
  unfold write_misc_partition
  cases hopen : env.openOk
  · simp [hopen]
  · by_cases hseek : env.lseekResult = toOffT offset
    · by_cases hw : min env.bytesAccepted size < size
      · simp [hopen, hseek, hw]
        omega
      · cases hf : env.fsyncOk
        · simp [hopen, hseek, hw, hf]
        · simp [hopen, hseek, hw, hf]
          omega
    · simp [hopen, hseek]

lemma wmp_err_of_fail (env : SysEnv) (p : List Nat) (size : Nat) (dev : String)
    (offset : Nat) (h : (write_misc_partition env p size dev offset).ok = false) :
    (write_misc_partition env p size dev offset).err ≠ none := by
  unfold write_misc_partition at h ⊢
  cases hopen : env.openOk
  · simp [hopen]
  · by_cases hseek : env.lseekResult = toOffT offset
    · by_cases hw : min env.bytesAccepted size < size
      · simp [hopen, hseek, hw]
      · cases hf : env.fsyncOk
        · simp [hopen, hseek, hw, hf]
        · simp [hopen, hseek, hw, hf] at h
    · simp [hopen, hseek]

lemma wmp_err_of_ok (env : SysEnv) (p : List Nat) (size : Nat) (dev : String)
    (offset : Nat) (h : (write_misc_partition env p size dev offset).ok = true) :
    (write_misc_partition env p size dev offset).err = none := by
  unfold write_misc_partition at h ⊢
  cases hopen : env.openOk
  · simp [hopen] at h
  · by_cases hseek : env.lseekResult = toOffT offset
    · by_cases hw : min env.bytesAccepted size < size
      · simp [hopen, hseek, hw] at h
      · cases hf : env.fsyncOk
        · simp [hopen, hseek, hw, hf] at h
        · simp [hopen, hseek, hw, hf]
    · simp [hopen, hseek] at h

lemma wmp_disk_frame (env : SysEnv) (p : List Nat) (size : Nat) (dev : String)
    (offset i : Nat) (h : i < offset ∨ offset + size ≤ i) :
    (write_misc_partition env p size dev offset).disk i = env.disk i := by
  have hlen : (p.take (min env.bytesAccepted size)).length ≤ size := by
    rw [List.length_take]
    omega
  unfold write_misc_partition
  cases hopen : env.openOk
  · simp [hopen]
  · by_cases hseek : env.lseekResult = toOffT offset
    · by_cases hw : min env.bytesAccepted size < size
      · simp [hopen, hseek, hw]
        exact writeBytes_eq_outside _ _ _ _ (by omega)
      · cases hf : env.fsyncOk
        · simp [hopen, hseek, hw, hf]
          exact writeBytes_eq_outside _ _ _ _ (by omega)
        · simp [hopen, hseek, hw, hf]
          exact writeBytes_eq_outside _ _ _ _ (by omega)
    · simp [hopen, hseek]

lemma wmp_disk_of_ok (env : SysEnv) (p : List Nat) (size : Nat) (dev : String)
    (offset : Nat) (h : (write_misc_partition env p size dev offset).ok = true) :
    (write_misc_partition env p size dev offset).disk =
      writeBytes env.disk offset (p.take (min env.bytesAccepted size)) := by
  rw [wmp_ok_iff] at h
  obtain ⟨h1, h2, h3, h4⟩ := h
  have hw : ¬ min env.bytesAccepted size < size := by omega
  unfold write_misc_partition
  simp [h1, h2, h4, hw]

lemma abs_offset_mod (L : Layout) (offset size : Nat)
    (hb : OffsetAndSizeInVendorSpace L offset size = true) :
    (L.VENDOR_SPACE_OFFSET_IN_MISC + offset) % SIZE_T_MOD =
      L.VENDOR_SPACE_OFFSET_IN_MISC + offset := by
  have h1 := (bounds_iff_sum L offset size).mp hb
  have h2 := L.vendor_lt_wipe
  have h3 := L.wipe_lt_mod
  unfold Layout.capacity at h1
  exact Nat.mod_eq_of_lt (by omega)

lemma wmpvs_delegate (L : Layout) (env : SysEnv) (data : List Nat)
    (size offset : Nat)
    (hb : OffsetAndSizeInVendorSpace L offset size = true)
    (hd : (get_misc_blk_device env).1 ≠ "") :
    WriteMiscPartitionVendorSpace L env data size offset =
      { ok := (write_misc_partition env data size (get_misc_blk_device env).1
                 (L.VENDOR_SPACE_OFFSET_IN_MISC + offset)).ok
        err := (write_misc_partition env data size (get_misc_blk_device env).1
                 (L.VENDOR_SPACE_OFFSET_IN_MISC + offset)).err
        disk := (write_misc_partition env data size (get_misc_blk_device env).1
                 (L.VENDOR_SPACE_OFFSET_IN_MISC + offset)).disk
        events := [.boundsCheck offset size, .resolveDevice] ++
          (write_misc_partition env data size (get_misc_blk_device env).1
            (L.VENDOR_SPACE_OFFSET_IN_MISC + offset)).events } := by
  unfold WriteMiscPartitionVendorSpace
  simp [hb, hd, abs_offset_mod L offset size hb]

lemma wmpvs_fail_of_bounds (L : Layout) (env : SysEnv) (data : List Nat)
    (size offset : Nat)
    (hb : OffsetAndSizeInVendorSpace L offset size = false) :
    WriteMiscPartitionVendorSpace L env data size offset =
      { ok := false
        err := some ("Out of bound write (offset " ++ toString offset ++ " size " ++
                     toString size ++ ")")
        disk := env.disk
        events := [.boundsCheck offset size] } := by
  unfold WriteMiscPartitionVendorSpace
  simp [hb]

lemma performAction_eq (L : Layout) (F : FlagConfig) (env : SysEnv)
    (a : MiscWriterActions) (ha : a ≠ MiscWriterActions.kUnset) (ov : Option Nat) :
    PerformAction L F env a ov =
      dispatchWrite L env (actionContent F a) (ov.getD (defaultOffset F a)) := by
  cases a
  · rfl
  · rfl
  · rfl
  · rfl
  · exact absurd rfl ha

lemma get_misc_blk_device_disk_irrel (env : SysEnv) (d : Nat → Nat) :
    get_misc_blk_device { env with disk := d } = get_misc_blk_device env := rfl

lemma wmp_idem (env : SysEnv) (p : List Nat) (size : Nat) (dev : String)
    (offset : Nat) (h : (write_misc_partition env p size dev offset).ok = true) :
    (write_misc_partition
        { env with disk := (write_misc_partition env p size dev offset).disk }
        p size dev offset).ok = true ∧
    (write_misc_partition
        { env with disk := (write_misc_partition env p size dev offset).disk }
        p size dev offset).disk = (write_misc_partition env p size dev offset).disk := by
  have hcond := (wmp_ok_iff env p size dev offset).mp h
  have hwok2 : (write_misc_partition
      { env with disk := (write_misc_partition env p size dev offset).disk }
      p size dev offset).ok = true :=
    (wmp_ok_iff _ p size dev offset).mpr hcond
  refine ⟨hwok2, ?_⟩
  rw [wmp_disk_of_ok _ p size dev offset hwok2,
      wmp_disk_of_ok env p size dev offset h]
  exact writeBytes_idem _ _ _

lemma wmpvs_idem (L : Layout) (env : SysEnv) (data : List Nat)
    (size offset : Nat)
    (h : (WriteMiscPartitionVendorSpace L env data size offset).ok = true) :
    (WriteMiscPartitionVendorSpace L
        { env with disk := (WriteMiscPartitionVendorSpace L env data size offset).disk }
        data size offset).ok = true ∧
    (WriteMiscPartitionVendorSpace L
        { env with disk := (WriteMiscPartitionVendorSpace L env data size offset).disk }
        data size offset).disk =
      (WriteMiscPartitionVendorSpace L env data size offset).disk := by
  by_cases hb : OffsetAndSizeInVendorSpace L offset size = true
  · by_cases hd : (get_misc_blk_device env).1 = ""
    · unfold WriteMiscPartitionVendorSpace at h
      simp [hb, hd] at h
    · have hdel := wmpvs_delegate L env data size offset hb hd
      have hwok : (write_misc_partition env data size (get_misc_blk_device env).1
          (L.VENDOR_SPACE_OFFSET_IN_MISC + offset)).ok = true := by
        rw [hdel] at h
        exact h
      have hidem := wmp_idem env data size (get_misc_blk_device env).1
        (L.VENDOR_SPACE_OFFSET_IN_MISC + offset) hwok
      have hd2 : (get_misc_blk_device
          { env with
            disk := (write_misc_partition env data size (get_misc_blk_device env).1
              (L.VENDOR_SPACE_OFFSET_IN_MISC + offset)).disk }).1 ≠ "" := hd
      have hdel2 := wmpvs_delegate L
        { env with
          disk := (write_misc_partition env data size (get_misc_blk_device env).1
            (L.VENDOR_SPACE_OFFSET_IN_MISC + offset)).disk }
        data size offset hb hd2
      rw [get_misc_blk_device_disk_irrel] at hdel2
      rw [hdel]
      dsimp only
      rw [hdel2]
      dsimp only
      exact ⟨hidem.1, hidem.2⟩
  · rw [Bool.not_eq_true] at hb
    rw [wmpvs_fail_of_bounds L env data size offset hb] at h
    simp at h

/-! Claim theorems. -/

/-- C1: the vendor-space bounds check `OffsetAndSizeInVendorSpace(offset, size)`,
with capacity `WIPE_PACKAGE_OFFSET_IN_MISC - VENDOR_SPACE_OFFSET_IN_MISC`,
succeeds exactly for the pairs with `size ≤ capacity` and
`offset ≤ capacity - size`, equivalently exactly when
`offset + size ≤ capacity` in exact (non-wrapping) arithmetic — so every
other pair fails, including oversized sizes, and no unsigned underflow
affects the result even though the subtractions are `size_t`. -/
theorem bounds_check_correct (L : Layout) (offset size : Nat) :
    (OffsetAndSizeInVendorSpace L offset size = true ↔
      size ≤ L.capacity ∧ offset ≤ L.capacity - size) ∧
    (OffsetAndSizeInVendorSpace L offset size = true ↔
      offset + size ≤ L.capacity) :=
  ⟨bounds_iff L offset size, bounds_iff_sum L offset size⟩

/-- Witness for the bounds-check theorem at a concrete layout and request. -/
theorem bounds_check_correct_witness :
    (OffsetAndSizeInVendorSpace testLayout 10 20 = true ↔
      20 ≤ testLayout.capacity ∧ 10 ≤ testLayout.capacity - 20) ∧
    (OffsetAndSizeInVendorSpace testLayout 10 20 = true ↔
      10 + 20 ≤ testLayout.capacity) :=
  bounds_check_correct testLayout 10 20

/-- C10: with `size = 0` the bounds check accepts exactly the offsets
`≤ capacity`, including `offset = capacity` (whose starting position is
exactly `WIPE_PACKAGE_OFFSET_IN_MISC`), and such a request proceeds past the
bounds check of `WriteMiscPartitionVendorSpace` to device resolution. -/
theorem zero_size_accepts_capacity (L : Layout) (offset : Nat) :
    (OffsetAndSizeInVendorSpace L offset 0 = true ↔ offset ≤ L.capacity) ∧
    OffsetAndSizeInVendorSpace L L.capacity 0 = true ∧
    (∀ env data, Event.resolveDevice ∈
      (WriteMiscPartitionVendorSpace L env data 0 L.capacity).events) := by
  have h1 : ∀ off, OffsetAndSizeInVendorSpace L off 0 = true ↔ off ≤ L.capacity := by
    intro off
    rw [bounds_iff_sum]
    omega
  have hcap : OffsetAndSizeInVendorSpace L L.capacity 0 = true :=
    (h1 L.capacity).mpr (Nat.le_refl _)
  refine ⟨h1 offset, hcap, ?_⟩
  intro env data
  by_cases hd : (get_misc_blk_device env).1 = ""
  · unfold WriteMiscPartitionVendorSpace
    simp [hcap, hd]
  · rw [wmpvs_delegate L env data 0 L.capacity hcap hd]
    simp

/-- Witness for the zero-size theorem at a concrete layout and offset. -/
theorem zero_size_accepts_capacity_witness :
    (OffsetAndSizeInVendorSpace testLayout 64 0 = true ↔ 64 ≤ testLayout.capacity) ∧
    OffsetAndSizeInVendorSpace testLayout testLayout.capacity 0 = true ∧
    (∀ env data, Event.resolveDevice ∈
      (WriteMiscPartitionVendorSpace testLayout env data 0 testLayout.capacity).events) :=
  zero_size_accepts_capacity testLayout 64

/-- C4: dispatching the uninitialized `kUnset` action fails immediately: it
returns `false`, leaves the device bytes untouched, and reaches no external
operation at all — no bounds check, no device resolution, no write. -/
theorem kUnset_no_io (L : Layout) (F : FlagConfig) (env : SysEnv)
    (override_offset : Option Nat) :
    (PerformAction L F env .kUnset override_offset).ok = false ∧
    (PerformAction L F env .kUnset override_offset).events = [] ∧
    (PerformAction L F env .kUnset override_offset).disk = env.disk :=
  ⟨rfl, rfl, rfl⟩

/-- Witness for the `kUnset` theorem at a concrete configuration. -/
theorem kUnset_no_io_witness :
    (PerformAction testLayout testFlags testEnvOk .kUnset (some 3)).ok = false ∧
    (PerformAction testLayout testFlags testEnvOk .kUnset (some 3)).events = [] ∧
    (PerformAction testLayout testFlags testEnvOk .kUnset (some 3)).disk =
      testEnvOk.disk :=
  kUnset_no_io testLayout testFlags testEnvOk (some 3)

/-- C5: for every set/clear action, an explicit override offset replaces the
action's default offset in the dispatched write while the selected content is
exactly the content selected without an override, and the bounds check is
applied to the override offset — a request whose override offset fails the
check is rejected. -/
theorem override_offset_precedence (L : Layout) (F : FlagConfig) (env : SysEnv)
    (a : MiscWriterActions) (ha : a ≠ MiscWriterActions.kUnset) (o : Nat) :
    PerformAction L F env a (some o) =
      dispatchWrite L env (actionContent F a) o ∧
    PerformAction L F env a none =
      dispatchWrite L env (actionContent F a) (defaultOffset F a) ∧
    (OffsetAndSizeInVendorSpace L o (actionContent F a).length = false →
      (PerformAction L F env a (some o)).ok = false) := by
  refine ⟨performAction_eq L F env a ha (some o),
    performAction_eq L F env a ha none, ?_⟩
  intro hb
  rw [performAction_eq L F env a ha (some o)]
  unfold dispatchWrite
  dsimp only
  simp only [Option.getD_some]
  rw [wmpvs_fail_of_bounds L env (actionContent F a) (actionContent F a).length o hb]

/-- Witness for the override theorem: a concrete set action with override
offset 2, which also fails the bounds check when the override is 9999. -/
theorem override_offset_precedence_witness :
    ((MiscWriterActions.kSetDarkThemeFlag ≠ MiscWriterActions.kUnset) ∧
      (PerformAction testLayout testFlags testEnvOk .kSetDarkThemeFlag (some 2) =
        dispatchWrite testLayout testEnvOk
          (actionContent testFlags .kSetDarkThemeFlag) 2 ∧
      PerformAction testLayout testFlags testEnvOk .kSetDarkThemeFlag none =
        dispatchWrite testLayout testEnvOk
          (actionContent testFlags .kSetDarkThemeFlag)
          (defaultOffset testFlags .kSetDarkThemeFlag) ∧
      (OffsetAndSizeInVendorSpace testLayout 2
          (actionContent testFlags .kSetDarkThemeFlag).length = false →
        (PerformAction testLayout testFlags testEnvOk .kSetDarkThemeFlag
          (some 2)).ok = false))) :=
  ⟨by decide,
    override_offset_precedence testLayout testFlags testEnvOk
      .kSetDarkThemeFlag (by decide) 2⟩

/-- C7: for each flag, the clear action dispatches a zero-filled buffer of
exactly the length of the corresponding set content, at the same default
logical offset as the set action. -/
theorem clear_matches_set (L : Layout) (F : FlagConfig) (env : SysEnv) :
    PerformAction L F env .kClearDarkThemeFlag none =
      dispatchWrite L env
        (List.replicate (actionContent F .kSetDarkThemeFlag).length 0)
        (defaultOffset F .kSetDarkThemeFlag) ∧
    PerformAction L F env .kClearSotaFlag none =
      dispatchWrite L env
        (List.replicate (actionContent F .kSetSotaFlag).length 0)
        (defaultOffset F .kSetSotaFlag) :=
  ⟨rfl, rfl⟩

/-- Witness for the clear-matches-set theorem at a concrete configuration. -/
theorem clear_matches_set_witness :
    PerformAction testLayout testFlags testEnvOk .kClearDarkThemeFlag none =
      dispatchWrite testLayout testEnvOk
        (List.replicate (actionContent testFlags .kSetDarkThemeFlag).length 0)
        (defaultOffset testFlags .kSetDarkThemeFlag) ∧
    PerformAction testLayout testFlags testEnvOk .kClearSotaFlag none =
      dispatchWrite testLayout testEnvOk
        (List.replicate (actionContent testFlags .kSetSotaFlag).length 0)
        (defaultOffset testFlags .kSetSotaFlag) :=
  clear_matches_set testLayout testFlags testEnvOk

/-- C3: `write_misc_partition` succeeds iff all four steps succeed in order —
the device opens, the seek lands exactly at the requested offset, the whole
buffer is written (a short write fails), and the `fsync` completes; every
failure carries a diagnostic (so a write whose flush fails is reported as
failed), a success leaves the diagnostic unassigned, and the first failing
step aborts the call (the trace stops there and the disk is untouched). -/
theorem raw_write_all_or_nothing (env : SysEnv) (p : List Nat) (size : Nat)
    (dev : String) (offset : Nat) :
    ((write_misc_partition env p size dev offset).ok = true ↔
      (env.openOk = true ∧ env.lseekResult = toOffT offset ∧
        size ≤ env.bytesAccepted ∧ env.fsyncOk = true)) ∧
    ((write_misc_partition env p size dev offset).ok = false →
      (write_misc_partition env p size dev offset).err ≠ none) ∧
    ((write_misc_partition env p size dev offset).ok = true →
      (write_misc_partition env p size dev offset).err = none) ∧
    (env.openOk = false →
      (write_misc_partition env p size dev offset).events = [.openDevice dev] ∧
      (write_misc_partition env p size dev offset).disk = env.disk) ∧
    (env.openOk = true → env.lseekResult ≠ toOffT offset →
      (write_misc_partition env p size dev offset).events =
        [.openDevice dev, .seek offset] ∧
      (write_misc_partition env p size dev offset).disk = env.disk) := by
  refine ⟨wmp_ok_iff env p size dev offset, wmp_err_of_fail env p size dev offset,
    wmp_err_of_ok env p size dev offset, ?_, ?_⟩
  · intro hopen
    unfold write_misc_partition
    simp [hopen]
  · intro hopen hseek
    unfold write_misc_partition
    simp [hopen, hseek]

/-- Witness for the raw-writer theorem at a concrete environment. -/
theorem raw_write_all_or_nothing_witness :
    (((write_misc_partition testEnvOk [7] 1 "/dev/block/misc" 0).ok = true ↔
      (testEnvOk.openOk = true ∧ testEnvOk.lseekResult = toOffT 0 ∧
        1 ≤ testEnvOk.bytesAccepted ∧ testEnvOk.fsyncOk = true)) ∧
    ((write_misc_partition testEnvOk [7] 1 "/dev/block/misc" 0).ok = false →
      (write_misc_partition testEnvOk [7] 1 "/dev/block/misc" 0).err ≠ none) ∧
    ((write_misc_partition testEnvOk [7] 1 "/dev/block/misc" 0).ok = true →
      (write_misc_partition testEnvOk [7] 1 "/dev/block/misc" 0).err = none) ∧
    (testEnvOk.openOk = false →
      (write_misc_partition testEnvOk [7] 1 "/dev/block/misc" 0).events =
        [.openDevice "/dev/block/misc"] ∧
      (write_misc_partition testEnvOk [7] 1 "/dev/block/misc" 0).disk =
        testEnvOk.disk) ∧
    (testEnvOk.openOk = true → testEnvOk.lseekResult ≠ toOffT 0 →
      (write_misc_partition testEnvOk [7] 1 "/dev/block/misc" 0).events =
        [.openDevice "/dev/block/misc", .seek 0] ∧
      (write_misc_partition testEnvOk [7] 1 "/dev/block/misc" 0).disk =
        testEnvOk.disk)) :=
  raw_write_all_or_nothing testEnvOk [7] 1 "/dev/block/misc" 0

/-- C2: whenever `WriteMiscPartitionVendorSpace` reaches the raw writer (the
bounds check passed and a device was resolved), it delegates to
`write_misc_partition` at absolute offset exactly
`VENDOR_SPACE_OFFSET_IN_MISC + offset`, the requested absolute byte range
lies inside `[VENDOR_SPACE_OFFSET_IN_MISC, WIPE_PACKAGE_OFFSET_IN_MISC)`,
and no byte outside the requested range is modified. -/
theorem vendor_space_write_contained (L : Layout) (env : SysEnv)
    (data : List Nat) (size offset : Nat)
    (hb : OffsetAndSizeInVendorSpace L offset size = true)
    (hd : (get_misc_blk_device env).1 ≠ "") :
    (WriteMiscPartitionVendorSpace L env data size offset =
      { ok := (write_misc_partition env data size (get_misc_blk_device env).1
                 (L.VENDOR_SPACE_OFFSET_IN_MISC + offset)).ok
        err := (write_misc_partition env data size (get_misc_blk_device env).1
                 (L.VENDOR_SPACE_OFFSET_IN_MISC + offset)).err
        disk := (write_misc_partition env data size (get_misc_blk_device env).1
                 (L.VENDOR_SPACE_OFFSET_IN_MISC + offset)).disk
        events := [.boundsCheck offset size, .resolveDevice] ++
          (write_misc_partition env data size (get_misc_blk_device env).1
            (L.VENDOR_SPACE_OFFSET_IN_MISC + offset)).events }) ∧
    L.VENDOR_SPACE_OFFSET_IN_MISC + offset + size ≤
      L.WIPE_PACKAGE_OFFSET_IN_MISC ∧
    (∀ i, i < L.VENDOR_SPACE_OFFSET_IN_MISC + offset ∨
        L.VENDOR_SPACE_OFFSET_IN_MISC + offset + size ≤ i →
      (WriteMiscPartitionVendorSpace L env data size offset).disk i =
        env.disk i) := by
  have hdel := wmpvs_delegate L env data size offset hb hd
  have hsum := (bounds_iff_sum L offset size).mp hb
  have hcont : L.VENDOR_SPACE_OFFSET_IN_MISC + offset + size ≤
      L.WIPE_PACKAGE_OFFSET_IN_MISC := by
    have hvw := L.vendor_lt_wipe
    unfold Layout.capacity at hsum
    omega
  refine ⟨hdel, hcont, ?_⟩
  intro i hi
  rw [hdel]
  dsimp only
  exact wmp_disk_frame env data size _ _ i hi

/-- Witness for the containment theorem at a concrete request. -/
theorem vendor_space_write_contained_witness :
    (OffsetAndSizeInVendorSpace testLayout 1 2 = true) ∧
    ((WriteMiscPartitionVendorSpace testLayout testEnvOk [9, 9] 2 1 =
      { ok := (write_misc_partition testEnvOk [9, 9] 2
                 (get_misc_blk_device testEnvOk).1
                 (testLayout.VENDOR_SPACE_OFFSET_IN_MISC + 1)).ok
        err := (write_misc_partition testEnvOk [9, 9] 2
                 (get_misc_blk_device testEnvOk).1
                 (testLayout.VENDOR_SPACE_OFFSET_IN_MISC + 1)).err
        disk := (write_misc_partition testEnvOk [9, 9] 2
                 (get_misc_blk_device testEnvOk).1
                 (testLayout.VENDOR_SPACE_OFFSET_IN_MISC + 1)).disk
        events := [.boundsCheck 1 2, .resolveDevice] ++
          (write_misc_partition testEnvOk [9, 9] 2
            (get_misc_blk_device testEnvOk).1
            (testLayout.VENDOR_SPACE_OFFSET_IN_MISC + 1)).events }) ∧
    testLayout.VENDOR_SPACE_OFFSET_IN_MISC + 1 + 2 ≤
      testLayout.WIPE_PACKAGE_OFFSET_IN_MISC ∧
    (∀ i, i < testLayout.VENDOR_SPACE_OFFSET_IN_MISC + 1 ∨
        testLayout.VENDOR_SPACE_OFFSET_IN_MISC + 1 + 2 ≤ i →
      (WriteMiscPartitionVendorSpace testLayout testEnvOk [9, 9] 2 1).disk i =
        testEnvOk.disk i)) :=
  ⟨by decide,
    vendor_space_write_contained testLayout testEnvOk [9, 9] 2 1 (by decide)
      (by decide)⟩

/-- C8: `get_misc_blk_device` returns a non-empty test override
unconditionally, with no diagnostic (and setting the override to the empty
string clears it); otherwise it returns the `blk_device` of the first fstab
entry whose mount point is `/misc`, and it assigns a diagnostic exactly when
the fstab cannot be read or no entry is mounted at `/misc`. -/
theorem device_resolution_spec (env : SysEnv) (d : String) :
    (d ≠ "" → get_misc_blk_device (SetMiscBlockDeviceForTest env d) = (d, none)) ∧
    (SetMiscBlockDeviceForTest env "").g_misc_device_for_test = "" ∧
    (env.g_misc_device_for_test = "" →
      (((get_misc_blk_device env).2 ≠ none) ↔
        (env.readDefaultFstab = none ∨
          ∃ fstab, env.readDefaultFstab = some fstab ∧
            ∀ e ∈ fstab, e.mount_point ≠ "/misc"))) ∧
    (env.g_misc_device_for_test = "" →
      ∀ fstab e, env.readDefaultFstab = some fstab →
        fstab.find? (fun x => x.mount_point == "/misc") = some e →
        get_misc_blk_device env = (e.blk_device, none)) := by
  refine ⟨?_, rfl, ?_, ?_⟩
  · intro hd
    unfold get_misc_blk_device SetMiscBlockDeviceForTest
    simp [hd]
  · intro hg
    cases hf : env.readDefaultFstab with
    | none =>
      have hval : get_misc_blk_device env =
          ("", some "failed to read default fstab") := by
        unfold get_misc_blk_device
        simp [hg, hf]
      rw [hval]
      simp
    | some fstab =>
      cases hfind : fstab.find? (fun x => x.mount_point == "/misc") with
      | none =>
        have hval : get_misc_blk_device env =
            ("", some "failed to find /misc partition") := by
          unfold get_misc_blk_device
          simp [hg, hf, hfind]
        rw [hval]
        constructor
        · intro _
          right
          refine ⟨fstab, rfl, ?_⟩
          intro e he
          have hne := List.find?_eq_none.mp hfind e he
          simpa using hne
        · intro _
          simp
      | some e =>
        have hmem : e ∈ fstab := List.mem_of_find?_eq_some hfind
        have hpt : e.mount_point = "/misc" := by
          have hq := List.find?_some hfind
          simpa using hq
        have hval : get_misc_blk_device env = (e.blk_device, none) := by
          unfold get_misc_blk_device
          simp [hg, hf, hfind]
        rw [hval]
        constructor
        · intro habs
          exact absurd rfl habs
        · rintro (hnone | ⟨fstab2, hf2, hall⟩)
          · exact absurd hnone (by simp)
          · injection hf2 with hh
            subst hh
            exact absurd hpt (hall e hmem)
  · intro hg fstab e hf hfind
    unfold get_misc_blk_device
    simp [hg, hf, hfind]

/-- Witness for the device-resolution theorem at a concrete environment. -/
theorem device_resolution_spec_witness :
    (("/dev/custom" : String) ≠ "" →
      get_misc_blk_device (SetMiscBlockDeviceForTest envEmptyBlk "/dev/custom") =
        ("/dev/custom", none)) ∧
    (SetMiscBlockDeviceForTest envEmptyBlk "").g_misc_device_for_test = "" ∧
    (envEmptyBlk.g_misc_device_for_test = "" →
      (((get_misc_blk_device envEmptyBlk).2 ≠ none) ↔
        (envEmptyBlk.readDefaultFstab = none ∨
          ∃ fstab, envEmptyBlk.readDefaultFstab = some fstab ∧
            ∀ e ∈ fstab, e.mount_point ≠ "/misc"))) ∧
    (envEmptyBlk.g_misc_device_for_test = "" →
      ∀ fstab e, envEmptyBlk.readDefaultFstab = some fstab →
        fstab.find? (fun x => x.mount_point == "/misc") = some e →
        get_misc_blk_device envEmptyBlk = (e.blk_device, none)) :=
  device_resolution_spec envEmptyBlk "/dev/custom"

/-- C6 counterexample: with an fstab whose `/misc` entry carries an empty
`blk_device`, the write path fails (returns `false`) while the diagnostic
out-parameter is never assigned — a failure with the diagnostic left unset,
on exactly the branch where the resolved device path is the empty string. -/
theorem failure_without_diagnostic_cex :
    (WriteMiscPartitionVendorSpace testLayout envEmptyBlk [] 0 0).ok = false ∧
    (WriteMiscPartitionVendorSpace testLayout envEmptyBlk [] 0 0).err = none := by
  constructor
  · rfl
  · rfl

/-- C6 (amended): whenever the write path of `WriteMiscPartitionVendorSpace`
fails, the failure carries a diagnostic, except in one corner: when the
fstab's `/misc` entry itself has an empty `blk_device`, resolution returns
that empty path without assigning the diagnostic and the call fails with the
diagnostic left unset. -/
theorem failure_has_diagnostic_unless_empty_blk_device (L : Layout)
    (env : SysEnv) (data : List Nat) (size offset : Nat)
    (h : (WriteMiscPartitionVendorSpace L env data size offset).ok = false) :
    (WriteMiscPartitionVendorSpace L env data size offset).err ≠ none ∨
    (env.g_misc_device_for_test = "" ∧
      ∃ fstab e, env.readDefaultFstab = some fstab ∧
        fstab.find? (fun x => x.mount_point == "/misc") = some e ∧
        e.blk_device = "") := by
  by_cases hb : OffsetAndSizeInVendorSpace L offset size = true
  · by_cases hd : (get_misc_blk_device env).1 = ""
    · by_cases hg : env.g_misc_device_for_test = ""
      · cases hf : env.readDefaultFstab with
        | none =>
          left
          have hval : get_misc_blk_device env =
              ("", some "failed to read default fstab") := by
            unfold get_misc_blk_device
            simp [hg, hf]
          unfold WriteMiscPartitionVendorSpace
          simp [hb, hval]
        | some fstab =>
          cases hfind : fstab.find? (fun x => x.mount_point == "/misc") with
          | none =>
            left
            have hval : get_misc_blk_device env =
                ("", some "failed to find /misc partition") := by
              unfold get_misc_blk_device
              simp [hg, hf, hfind]
            unfold WriteMiscPartitionVendorSpace
            simp [hb, hval]
          | some e =>
            right
            have hval : get_misc_blk_device env = (e.blk_device, none) := by
              unfold get_misc_blk_device
              simp [hg, hf, hfind]
            rw [hval] at hd
            exact ⟨hg, fstab, e, rfl, hfind, hd⟩
      · exfalso
        have hval : get_misc_blk_device env =
            (env.g_misc_device_for_test, none) := by
          unfold get_misc_blk_device
          simp [hg]
        rw [hval] at hd
        exact hg hd
    · have hdel := wmpvs_delegate L env data size offset hb hd
      rw [hdel] at h ⊢
      dsimp only at h ⊢
      left
      exact wmp_err_of_fail env data size _ _ h
  · left
    rw [Bool.not_eq_true] at hb
    rw [wmpvs_fail_of_bounds L env data size offset hb]
    simp

/-- Witness for the amended diagnostics theorem: a concrete out-of-bounds
request fails and indeed carries a diagnostic. -/
theorem failure_has_diagnostic_witness :
    ((WriteMiscPartitionVendorSpace testLayout testEnvOk [] 100 0).ok = false) ∧
    ((WriteMiscPartitionVendorSpace testLayout testEnvOk [] 100 0).err ≠ none ∨
    (testEnvOk.g_misc_device_for_test = "" ∧
      ∃ fstab e, testEnvOk.readDefaultFstab = some fstab ∧
        fstab.find? (fun x => x.mount_point == "/misc") = some e ∧
        e.blk_device = "")) :=
  ⟨by decide,
    failure_has_diagnostic_unless_empty_blk_device testLayout testEnvOk [] 100 0
      (by decide)⟩

/-- C9: a successful set/clear action is idempotent: dispatching the same
action again on the device state the first run produced succeeds and leaves
the on-disk bytes exactly as after the first run — the dispatched write has
the same content, same size and same absolute offset both times. -/
theorem performAction_idempotent (L : Layout) (F : FlagConfig) (env : SysEnv)
    (a : MiscWriterActions) (ov : Option Nat)
    (h : (PerformAction L F env a ov).ok = true) :
    (PerformAction L F
        { env with disk := (PerformAction L F env a ov).disk } a ov).ok = true ∧
    (PerformAction L F
        { env with disk := (PerformAction L F env a ov).disk } a ov).disk =
      (PerformAction L F env a ov).disk := by
  have ha : a ≠ MiscWriterActions.kUnset := by
    intro hk
    subst hk
    exact absurd h (by simp [PerformAction])
  rw [performAction_eq L F env a ha ov] at h ⊢
  rw [performAction_eq L F _ a ha ov]
  unfold dispatchWrite at h ⊢
  dsimp only at h ⊢
  exact wmpvs_idem L env (actionContent F a) (actionContent F a).length
    (ov.getD (defaultOffset F a)) h

/-- Witness for the idempotence theorem: a concrete successful set action. -/
theorem performAction_idempotent_witness :
    ((PerformAction testLayout testFlags testEnvOk .kSetDarkThemeFlag none).ok
      = true) ∧
    ((PerformAction testLayout testFlags
        { testEnvOk with
          disk := (PerformAction testLayout testFlags testEnvOk
            .kSetDarkThemeFlag none).disk }
        .kSetDarkThemeFlag none).ok = true ∧
    (PerformAction testLayout testFlags
        { testEnvOk with
          disk := (PerformAction testLayout testFlags testEnvOk
            .kSetDarkThemeFlag none).disk }
        .kSetDarkThemeFlag none).disk =
      (PerformAction testLayout testFlags testEnvOk
        .kSetDarkThemeFlag none).disk) :=
  ⟨by decide,
    performAction_idempotent testLayout testFlags testEnvOk .kSetDarkThemeFlag
      none (by decide)⟩

end MiscWriter
